import Mathlib

/-!
Verification of the mcp-adb parsing/dispatch core.

This file gives a shallow embedding of the parsing and dispatch layer of the
`mcp_adb` package (files `mcp_adb/adb_tools.py`, `mcp_adb/server.py`,
`mcp_adb/tools/adb_tools.py`) and proves properties of it.

Python strings are modelled as `List Char`; Python dicts from string to string
are modelled as association lists with CPython's insert-in-place update
semantics; a function that can raise returns an `Option`/`Except`.
-/

/-- Python strings are modelled as lists of characters. -/
abbrev Str : Type := List Char

/-- Embed a Lean string literal as a modelled Python string. -/
def str (s : String) : Str := s.toList

/-- The whitespace characters recognised by Python's `str.split()` /
`str.strip()` (ASCII fragment, which is all that occurs here). -/
def isPySpace (c : Char) : Bool :=
  c = ' ' || c = '\t' || c = '\n' || c = '\x0b' || c = '\x0c' || c = '\r'

/-- `startsWith pre s` decides whether `pre` is an initial segment of `s`. -/
def startsWith : Str → Str → Bool
  | [], _ => true
  | _ :: _, [] => false
  | a :: as, b :: bs => a = b && startsWith as bs

/-- Python's substring test `needle in hay`. -/
def containsSub (needle : Str) : Str → Bool
  | [] => startsWith needle []
  | c :: cs => startsWith needle (c :: cs) || containsSub needle cs

/-- Python's `s.split(sep, 1)` for a non-empty separator `sep`: `some (a, b)`
when `s = a ++ sep ++ b` splits at the first occurrence of `sep`, `none` when
`sep` does not occur in `s`. -/
def pySplit1 (sep : Str) : Str → Option (Str × Str)
  | [] => none
  | c :: cs =>
    if startsWith sep (c :: cs) then some ([], (c :: cs).drop sep.length)
    else
      match pySplit1 sep cs with
      | some (a, b) => some (c :: a, b)
      | none => none

/-- Split at every character satisfying `p`, keeping empty pieces
(the underlying splitter of Python's `str.split`). -/
def pySplitP (p : Char → Bool) : Str → List Str
  | [] => [[]]
  | c :: cs =>
    if p c then [] :: pySplitP p cs
    else
      match pySplitP p cs with
      | t :: ts => (c :: t) :: ts
      | [] => [[c]]

/-- Python's `s.split(c)` for a single-character separator: empty pieces kept. -/
def pySplitOn (c : Char) (s : Str) : List Str := pySplitP (fun x => x = c) s

/-- Python's `s.split()` (no separator): split on whitespace runs, no empty
pieces. -/
def pySplitWs (s : Str) : List Str := (pySplitP isPySpace s).filter (fun t => t ≠ [])

/-- Join pieces with a single-character separator (Python `c.join(ls)` and the
inverse of `pySplitOn`). -/
def joinWith (c : Char) : List Str → Str
  | [] => []
  | [l] => l
  | l :: l' :: ls => l ++ c :: joinWith c (l' :: ls)

/-- Drop leading characters satisfying `p` (Python `lstrip`). -/
def lstripP (p : Char → Bool) (s : Str) : Str := s.dropWhile p

/-- Drop trailing characters satisfying `p` (Python `rstrip`). -/
def rstripP (p : Char → Bool) (s : Str) : Str := (s.reverse.dropWhile p).reverse

/-- Python's `s.strip()` with no argument: strip whitespace at both ends. -/
def pyStrip (s : Str) : Str := rstripP isPySpace (lstripP isPySpace s)

/-- Python's `s.strip(chars)`: strip characters of the set `cs` at both ends. -/
def stripChars (cs : List Char) (s : Str) : Str :=
  rstripP (fun c => c ∈ cs) (lstripP (fun c => c ∈ cs) s)

/-- Python's `s.rstrip(chars)`: strip characters of the set `cs` at the end. -/
def rstripChars (cs : List Char) (s : Str) : Str := rstripP (fun c => c ∈ cs) s

/-- A Python `dict` from string to string, in insertion order. -/
abbrev Dict : Type := List (Str × Str)

/-- Lookup in a modelled dict (keys are unique, first match). -/
def dictLookup (d : Dict) (k : Str) : Option Str :=
  match d with
  | [] => none
  | (k', v') :: t => if k' = k then some v' else dictLookup t k

/-- Replace the value stored at key `k` (at its original position). -/
def dictReplace (k v : Str) : Dict → Dict
  | [] => []
  | (k', v') :: t => if k' = k then (k, v) :: dictReplace k v t else (k', v') :: dictReplace k v t

/-- CPython `d[k] = v`: overwrite in place when the key is present, append
otherwise. -/
def dictInsert (d : Dict) (k v : Str) : Dict :=
  if (dictLookup d k).isSome then dictReplace k v d
  else d ++ [(k, v)]

/-! ## The Mock Responder (`ADBTools._run_mock_command`, adb_tools.py lines 65-102) -/

/-- The canned `devices -l` listing returned by the mock (verbatim, tab after
the device id as in the source). -/
def devices_l_output : Str :=
  str "List of devices attached\nmock_device_001\tdevice usb:1-1 product:sdk_gphone64_x86_64 model:Android_SDK_built_for_x86_64 device:generic_x86_64\nmock_device_002\tdevice usb:1-2 product:pixel7 model:Pixel_7 device:pixel7"

/-- The canned `getprop` property dump returned by the mock (verbatim). -/
def getprop_output : Str :=
  str "[ro.build.version.release]: [14]\n[ro.product.manufacturer]: [Google]\n[ro.product.model]: [Android SDK built for x86_64]\n[ro.build.display.id]: [UpsideDownCake]\n[ro.hardware]: [ranchu]"

/-- Position of the first occurrence of `x` (Python `list.index`, callers
guard with `in` so the not-found value is never observed). -/
def pyIndex (x : Str) : List Str → Nat
  | [] => 0
  | a :: as => if a = x then 0 else pyIndex x as + 1

/-- The `elif` chain of `_run_mock_command` from the `args[:2] == ["-s",
"mock_device_001"]` test on; these branches only use total slicing and
membership tests, so they always return a string. -/
def mock_tail (args : List Str) : Str :=
  if args.take 2 = [str "-s", str "mock_device_001"] ∧ args.drop 2 = [str "shell", str "getprop"] then
    getprop_output
  else if str "shell" ∈ args then
    str "Mock command output for: " ++ joinWith ' ' (args.drop (pyIndex (str "shell") args + 1))
  else if str "install" ∈ args then
    str "Success"
  else if str "uninstall" ∈ args then
    str "Success"
  else if str "push" ∈ args ∨ str "pull" ∈ args then
    str "Transferred successfully"
  else
    str "Mock response for: " ++ joinWith ' ' args

/-- `ADBTools._run_mock_command`.  The test `args[0] == "shell" and args[1] ==
"getprop"` evaluates `args[0]` and (when `args[0] == "shell"`) `args[1]`
unconditionally, so the empty list and the singleton `["shell"]` raise
`IndexError`, modelled by `none`. -/
def run_mock_command (args : List Str) : Option Str :=
  if args = [str "devices", str "-l"] then some devices_l_output
  else
    match args with
    | [] => none
    | a0 :: rest =>
      if a0 = str "shell" then
        match rest with
        | [] => none
        | a1 :: _ =>
          if a1 = str "getprop" then some getprop_output else some (mock_tail args)
      else some (mock_tail args)

/-! ## The Command Runner (`ADBTools._run_command`, adb_tools.py lines 37-63) -/

/-- Captured outcome of one completed subprocess. -/
structure ProcResult where
  returncode : Int
  stdout : Str
  stderr : Str
deriving DecidableEq

/-- Outcome of trying to launch the subprocess. -/
inductive LaunchOutcome where
  | ok (r : ProcResult)
  | fileNotFound
  | otherError (msg : Str)
deriving DecidableEq

/-- Body of the `try` block of `_run_command` once the process has completed:
non-zero exit raises `ADBError("ADB command failed: " + stderr.strip())`,
otherwise the trimmed stdout is returned. -/
def run_command_try (r : ProcResult) : Except Str Str :=
  if r.returncode ≠ 0 then Except.error (str "ADB command failed: " ++ pyStrip r.stderr)
  else Except.ok (pyStrip r.stdout)

/-- `_run_command` in real (non-mock) mode.  The `ADBError` raised inside the
`try` block is itself an `Exception`, so it is re-caught by the
`except Exception` clause and re-wrapped as
`ADBError("Failed to execute ADB command: " + str(e))`. -/
def run_command (adb_path : Str) (launch : LaunchOutcome) : Except Str Str :=
  match launch with
  | .ok r =>
    match run_command_try r with
    | .ok out => .ok out
    | .error e => .error (str "Failed to execute ADB command: " ++ e)
  | .fileNotFound => .error (str "ADB executable not found at: " ++ adb_path)
  | .otherError m => .error (str "Failed to execute ADB command: " ++ m)

/-! ## The Output Parsers (`list_devices` / `get_device_info`, adb_tools.py lines 104-150) -/

/-- Body of the `for part in parts[2:]` loop of `list_devices`: a token
containing `":"` is split at the first `":"` and inserted into the record. -/
def device_part_step (d : Dict) (part : Str) : Dict :=
  match pySplit1 (str ":") part with
  | some (k, v) => dictInsert d k v
  | none => d

/-- One iteration of the `for line in output.split('\n')[1:]` loop of
`list_devices`: `none` when the line contributes no record. -/
def parse_device_line (line : Str) : Option Dict :=
  if pyStrip line = [] then none
  else
    match pySplitWs line with
    | p0 :: p1 :: rest =>
      some (rest.foldl device_part_step [(str "id", p0), (str "status", p1)])
    | _ => none

/-- The device-list parser: the parsing part of `ADBTools.list_devices`. -/
def list_devices_parse (output : Str) : List Dict :=
  ((pySplitOn '\n' output).drop 1).filterMap parse_device_line

/-- One iteration of the `for line in output.split('\n')` loop of
`get_device_info`.  When `": ["` occurs in the line, `split(': [', 1)` always
yields exactly two parts, so the source's `len(parts) == 2` test always
succeeds on this path. -/
def get_device_info_line (props : Dict) (line : Str) : Dict :=
  match pySplit1 (str ": [") line with
  | some (left, right) =>
    dictInsert props (stripChars (str "[]") left) (rstripChars (str "]") right)
  | none => props

/-- The property parser: the parsing part of `ADBTools.get_device_info`. -/
def get_device_info_parse (output : Str) : Dict :=
  (pySplitOn '\n' output).foldl get_device_info_line []

/-! ## The Device Operations Facade (adb_tools.py lines 104-211)

The facade is parameterised by the runner it delegates to (`_run_command`):
a function from an argument vector to either trimmed output text or the
message of a raised `ADBError`. -/

/-- Abstraction of `self._run_command`. -/
abbrev Runner : Type := List Str → Except Str Str

/-- The `-s <id>` selector pair: Python tests `if device_id:`, so `None` and
the empty string both yield no selector. -/
def selector : Option Str → List Str
  | some d => if d = [] then [] else [str "-s", d]
  | none => []

/-- `ADBTools.list_devices`: run `devices -l` and parse; failures propagate. -/
def list_devices (runner : Runner) : Except Str (List Dict) :=
  (runner [str "devices", str "-l"]).map list_devices_parse

/-- `ADBTools.get_device_info`: run `getprop` and parse; failures propagate. -/
def get_device_info (runner : Runner) (device_id : Option Str) : Except Str Dict :=
  (runner (selector device_id ++ [str "shell", str "getprop"])).map get_device_info_parse

/-- `ADBTools.shell_command`: raw trimmed output, no parsing. -/
def shell_command (runner : Runner) (command : Str) (device_id : Option Str) : Except Str Str :=
  runner (selector device_id ++ [str "shell", command])

/-- `ADBTools.install_app`: `ADBError` is swallowed to `false`. -/
def install_app (runner : Runner) (apk_path : Str) (device_id : Option Str) : Bool :=
  match runner (selector device_id ++ [str "install", apk_path]) with
  | .ok _ => true
  | .error _ => false

/-- `ADBTools.uninstall_app`: `ADBError` is swallowed to `false`. -/
def uninstall_app (runner : Runner) (package_name : Str) (device_id : Option Str) : Bool :=
  match runner (selector device_id ++ [str "uninstall", package_name]) with
  | .ok _ => true
  | .error _ => false

/-- `ADBTools.push_file`: `ADBError` is swallowed to `false`. -/
def push_file (runner : Runner) (local_path remote_path : Str) (device_id : Option Str) : Bool :=
  match runner (selector device_id ++ [str "push", local_path, remote_path]) with
  | .ok _ => true
  | .error _ => false

/-- `ADBTools.pull_file`: `ADBError` is swallowed to `false`. -/
def pull_file (runner : Runner) (remote_path local_path : Str) (device_id : Option Str) : Bool :=
  match runner (selector device_id ++ [str "pull", remote_path, local_path]) with
  | .ok _ => true
  | .error _ => false

/-! ## The Tool Dispatch Layer (`handle_call_tool`, server.py lines 166-219) -/

/-- The success payloads built by the dispatch branches:
`{"devices":…, "count":…}`, `{"device_info":…}`, `{"output":…}`,
`{"success":…}`. -/
inductive ToolResult where
  | devices (devices : List Dict) (count : Nat)
  | device_info (info : Dict)
  | output (text : Str)
  | success (flag : Bool)
deriving DecidableEq

/-- The exceptions that can escape the dispatch body: a propagated `ADBError`,
a `KeyError` from `arguments[k]`, or the `ValueError("Unknown tool: …")`. -/
inductive PyExc where
  | adbError (msg : Str)
  | keyError (key : Str)
  | valueError (msg : Str)
deriving DecidableEq

/-- The incoming argument bag (a JSON object of strings). -/
abbrev Arguments : Type := Dict

/-- Python `arguments[k]`: raises `KeyError(k)` when the key is absent. -/
def requireArg (arguments : Arguments) (k : Str) : Except PyExc Str :=
  match dictLookup arguments k with
  | some v => .ok v
  | none => .error (.keyError k)

/-- Lift a facade/runner failure into the dispatch body's exception type
(`ADBError` is the only exception the facade raises). -/
def liftADB {α : Type} : Except Str α → Except PyExc α
  | .ok a => .ok a
  | .error m => .error (.adbError m)

/-- The `try` body of `handle_call_tool`: the `if/elif` chain on the tool
name.  `arguments.get("device_id")` never raises; `arguments["…"]` may raise
`KeyError`, in source order. -/
def handle_call_tool_body (runner : Runner) (name : Str) (arguments : Arguments) :
    Except PyExc ToolResult :=
  if name = str "list_devices" then do
    let devices ← liftADB (list_devices runner)
    return .devices devices devices.length
  else if name = str "get_device_info" then do
    let device_id := dictLookup arguments (str "device_id")
    let info ← liftADB (get_device_info runner device_id)
    return .device_info info
  else if name = str "shell_command" then do
    let command ← requireArg arguments (str "command")
    let device_id := dictLookup arguments (str "device_id")
    let out ← liftADB (shell_command runner command device_id)
    return .output out
  else if name = str "install_app" then do
    let apk_path ← requireArg arguments (str "apk_path")
    let device_id := dictLookup arguments (str "device_id")
    return .success (install_app runner apk_path device_id)
  else if name = str "push_file" then do
    let local_path ← requireArg arguments (str "local_path")
    let remote_path ← requireArg arguments (str "remote_path")
    let device_id := dictLookup arguments (str "device_id")
    return .success (push_file runner local_path remote_path device_id)
  else if name = str "pull_file" then do
    let remote_path ← requireArg arguments (str "remote_path")
    let local_path ← requireArg arguments (str "local_path")
    let device_id := dictLookup arguments (str "device_id")
    return .success (pull_file runner remote_path local_path device_id)
  else
    .error (.valueError (str "Unknown tool: " ++ name))

/-- The serialized response: one JSON object per call, either the
tool-specific success payload or `{"error": …, "type": …}`. -/
inductive Response where
  | ok (result : ToolResult)
  | err (error : Str) (type : Str)
deriving DecidableEq

/-- The single-quote character (used by `repr` of a `KeyError` key). -/
def squote : Char := Char.ofNat 39

/-- `str(KeyError(k))` is the `repr` of the key: `k` in single quotes. -/
def pyReprKey (k : Str) : Str := squote :: k ++ [squote]

/-- `handle_call_tool` with its `except` clauses: `ADBError` is serialized
with type `"ADBError"`, any other exception with type `"UnknownError"`
(`str(e)` of a `KeyError` is the quoted key, of a `ValueError` its message). -/
def handle_call_tool (runner : Runner) (name : Str) (arguments : Arguments) : Response :=
  match handle_call_tool_body runner name arguments with
  | .ok r => .ok r
  | .error (.adbError m) => .err m (str "ADBError")
  | .error (.keyError k) => .err (pyReprKey k) (str "UnknownError")
  | .error (.valueError m) => .err m (str "UnknownError")

/-! ## The tool registry (`ADB_TOOLS`, tools/adb_tools.py lines 10-132) -/

/-- One entry of the `ADB_TOOLS` table: name, required argument keys and
optional argument keys of the input schema. -/
structure ToolDef where
  name : Str
  required : List Str
  optional : List Str
deriving DecidableEq

/-- The `ADB_TOOLS` registry (seven tools). -/
def ADB_TOOLS : List ToolDef :=
  [⟨str "list_devices", [], []⟩,
   ⟨str "get_device_info", [], [str "device_id"]⟩,
   ⟨str "shell_command", [str "command"], [str "device_id"]⟩,
   ⟨str "install_app", [str "apk_path"], [str "device_id"]⟩,
   ⟨str "uninstall_app", [str "package_name"], [str "device_id"]⟩,
   ⟨str "push_file", [str "local_path", str "remote_path"], [str "device_id"]⟩,
   ⟨str "pull_file", [str "remote_path", str "local_path"], [str "device_id"]⟩]

/-- The key under which a `key:value` device-listing token is inserted
(`none` when the token contains no `":"`). -/
def colonKey (t : Str) : Option Str := (pySplit1 (str ":") t).map Prod.fst

/-! ## Lemmas about the dict model -/

theorem dictLookup_dictReplace_self (k v : Str) :
    ∀ (d : Dict), (dictLookup d k).isSome →
      dictLookup (dictReplace k v d) k = some v := by
  intro d
  induction d with
  | nil => intro h; simp [dictLookup] at h
  | cons hd t ih =>
    obtain ⟨k', v'⟩ := hd
    intro h
    by_cases hk : k' = k
    · simp [dictReplace, if_pos hk, dictLookup]
    · simp only [dictLookup, if_neg hk] at h
      simp only [dictReplace, if_neg hk, dictLookup, if_neg hk]
      exact ih h

theorem dictLookup_append_single (k v : Str) :
    ∀ (d : Dict), dictLookup d k = none → dictLookup (d ++ [(k, v)]) k = some v := by
  intro d
  induction d with
  | nil => intro _; simp [dictLookup]
  | cons hd t ih =>
    obtain ⟨k', v'⟩ := hd
    intro h
    by_cases hk : k' = k
    · simp [dictLookup, if_pos hk] at h
    · simp only [dictLookup, if_neg hk] at h
      simp only [List.cons_append, dictLookup, if_neg hk]
      exact ih h

theorem dictLookup_dictReplace_ne (k v k' : Str) (hne : k' ≠ k) :
    ∀ (d : Dict), dictLookup (dictReplace k v d) k' = dictLookup d k' := by
  intro d
  induction d with
  | nil => rfl
  | cons hd t ih =>
    obtain ⟨a, b⟩ := hd
    by_cases ha : a = k
    · have hak' : a ≠ k' := fun hc => hne (hc ▸ ha)
      simp only [dictReplace, if_pos ha, dictLookup,
        if_neg (fun hc : k = k' => hne hc.symm), if_neg hak']
      exact ih
    · by_cases ha' : a = k'
      · simp [dictReplace, if_neg ha, dictLookup, if_pos ha']
      · simp only [dictReplace, if_neg ha, dictLookup, if_neg ha']
        exact ih

theorem dictLookup_append_single_ne (k v k' : Str) (hne : k' ≠ k) :
    ∀ (d : Dict), dictLookup (d ++ [(k, v)]) k' = dictLookup d k' := by
  intro d
  induction d with
  | nil => simp [dictLookup, if_neg (fun hc : k = k' => hne hc.symm)]
  | cons hd t ih =>
    obtain ⟨a, b⟩ := hd
    by_cases ha' : a = k'
    · simp [dictLookup, if_pos ha']
    · simp only [List.cons_append, dictLookup, if_neg ha']
      exact ih

/-- Inserting `k` makes `k` look up to the inserted value. -/
theorem dictLookup_dictInsert_self (d : Dict) (k v : Str) :
    dictLookup (dictInsert d k v) k = some v := by
  unfold dictInsert
  by_cases h : (dictLookup d k).isSome
  · rw [if_pos h]; exact dictLookup_dictReplace_self k v d h
  · rw [if_neg h]
    exact dictLookup_append_single k v d (Option.not_isSome_iff_eq_none.mp h)

/-- Inserting `k` does not change the lookup of a different key. -/
theorem dictLookup_dictInsert_ne (d : Dict) (k v k' : Str) (hne : k' ≠ k) :
    dictLookup (dictInsert d k v) k' = dictLookup d k' := by
  unfold dictInsert
  by_cases h : (dictLookup d k).isSome
  · rw [if_pos h]; exact dictLookup_dictReplace_ne k v k' hne d
  · rw [if_neg h]; exact dictLookup_append_single_ne k v k' hne d

/-- Inserting any key keeps every present key present. -/
theorem dictInsert_isSome_preserved (d : Dict) (k v k' : Str) :
    (dictLookup d k').isSome → (dictLookup (dictInsert d k v) k').isSome := by
  intro h
  by_cases hk : k' = k
  · subst hk; rw [dictLookup_dictInsert_self]; rfl
  · rwa [dictLookup_dictInsert_ne d k v k' hk]

/-! ## Lemmas about the string model -/

theorem startsWith_append_self : ∀ (s t : Str), startsWith s (s ++ t) = true := by
  intro s
  induction s with
  | nil => intro t; rfl
  | cons c cs ih =>
    intro t
    show (decide (c = c) && startsWith cs (cs ++ t)) = true
    rw [ih t, decide_eq_true rfl, Bool.true_and]

theorem containsSub_append_self : ∀ (a b : Str), containsSub b (a ++ b) = true := by
  intro a
  induction a with
  | nil =>
    intro b
    cases b with
    | nil => rfl
    | cons c cs =>
      have h := startsWith_append_self (c :: cs) []
      rw [List.append_nil] at h
      show (startsWith (c :: cs) (c :: cs) || containsSub (c :: cs) cs) = true
      rw [h, Bool.true_or]
  | cons x a' ih =>
    intro b
    show (startsWith b (x :: (a' ++ b)) || containsSub b (a' ++ b)) = true
    rw [ih b, Bool.or_true]

theorem pySplit1_marker (c0 : Char) (sep' : Str) :
    ∀ (a b : Str), c0 ∉ a →
      pySplit1 (c0 :: sep') (a ++ (c0 :: sep') ++ b) = some (a, b) := by
  intro a
  induction a with
  | nil =>
    intro b _
    show pySplit1 (c0 :: sep') (c0 :: (sep' ++ b)) = some ([], b)
    unfold pySplit1
    rw [if_pos (show startsWith (c0 :: sep') (c0 :: (sep' ++ b)) = true from
      startsWith_append_self (c0 :: sep') b)]
    simp only [List.length_cons, List.drop_succ_cons]
    rw [List.drop_left]
  | cons x a' ih =>
    intro b hc
    have hx : c0 ≠ x := fun h => hc (h ▸ List.mem_cons_self x a')
    have hc' : c0 ∉ a' := fun h => hc (List.mem_cons_of_mem x h)
    show pySplit1 (c0 :: sep') (x :: (a' ++ (c0 :: sep') ++ b)) = some (x :: a', b)
    unfold pySplit1
    have hsw : startsWith (c0 :: sep') (x :: (a' ++ (c0 :: sep') ++ b)) = false := by
      show (decide (c0 = x) && startsWith sep' (a' ++ (c0 :: sep') ++ b)) = false
      rw [decide_eq_false hx, Bool.false_and]
    rw [if_neg (by rw [hsw]; exact Bool.false_ne_true), ih b hc']

theorem pySplit1_isSome_eq_containsSub (sep : Str) (hsep : sep ≠ []) :
    ∀ (s : Str), (pySplit1 sep s).isSome = containsSub sep s := by
  intro s
  induction s with
  | nil =>
    cases sep with
    | nil => exact absurd rfl hsep
    | cons c cs => rfl
  | cons c cs ih =>
    show (pySplit1 sep (c :: cs)).isSome = containsSub sep (c :: cs)
    unfold pySplit1 containsSub
    by_cases h : startsWith sep (c :: cs) = true
    · rw [if_pos h, h, Bool.true_or]; rfl
    · have hf : startsWith sep (c :: cs) = false := Bool.eq_false_iff.mpr h
      rw [if_neg h, hf, Bool.false_or]
      cases hp : pySplit1 sep cs with
      | none => rw [hp] at ih; exact ih
      | some ab =>
        obtain ⟨a, b⟩ := ab
        rw [hp] at ih
        exact ih

theorem pySplitP_single (p : Char → Bool) :
    ∀ (l : Str), (∀ c ∈ l, p c = false) → pySplitP p l = [l] := by
  intro l
  induction l with
  | nil => intro _; rfl
  | cons c cs ih =>
    intro h
    unfold pySplitP
    rw [if_neg (by rw [h c (List.mem_cons_self c cs)]; exact Bool.false_ne_true)]
    rw [ih (fun x hx => h x (List.mem_cons_of_mem c hx))]

theorem pySplitP_first (p : Char → Bool) (c : Char) (hc : p c = true) :
    ∀ (l s : Str), (∀ x ∈ l, p x = false) →
      pySplitP p (l ++ c :: s) = l :: pySplitP p s := by
  intro l
  induction l with
  | nil =>
    intro s _
    show pySplitP p (c :: s) = [] :: pySplitP p s
    simp only [pySplitP]
    rw [if_pos hc]
  | cons x l' ih =>
    intro s h
    show pySplitP p (x :: (l' ++ c :: s)) = (x :: l') :: pySplitP p s
    simp only [pySplitP]
    rw [if_neg (by rw [h x (List.mem_cons_self x l')]; exact Bool.false_ne_true)]
    rw [ih s (fun y hy => h y (List.mem_cons_of_mem x hy))]

theorem pySplitOn_joinWith (c : Char) :
    ∀ (ls : List Str), ls ≠ [] → (∀ l ∈ ls, c ∉ l) →
      pySplitOn c (joinWith c ls) = ls := by
  intro ls
  induction ls with
  | nil => intro h _; exact absurd rfl h
  | cons l ls' ih =>
    intro _ hmem
    have hl : ∀ x ∈ l, (fun y => decide (y = c)) x = false := fun x hx =>
      decide_eq_false (fun he => hmem l (List.mem_cons_self l ls') (he ▸ hx))
    cases ls' with
    | nil =>
      show pySplitOn c l = [l]
      exact pySplitP_single _ l hl
    | cons l2 ls'' =>
      show pySplitOn c (l ++ c :: joinWith c (l2 :: ls'')) = l :: (l2 :: ls'')
      unfold pySplitOn
      rw [pySplitP_first _ c (by simp) l _ hl]
      exact congrArg _ (ih (by simp) (fun x hx => hmem x (List.mem_cons_of_mem l hx)))

theorem rstripP_eq_self (p : Char → Bool) :
    ∀ (s : Str), (∀ c, s.getLast? = some c → p c = false) → rstripP p s = s := by
  intro s h
  unfold rstripP
  cases hr : s.reverse with
  | nil =>
    rw [List.reverse_eq_nil_iff] at hr
    rw [hr]; rfl
  | cons c t =>
    have hlast : s.getLast? = some c := by
      rw [← List.head?_reverse, hr]; rfl
    rw [List.dropWhile_cons, if_neg (by rw [h c hlast]; exact Bool.false_ne_true)]
    rw [← hr, List.reverse_reverse]

theorem rstripP_append_one (p : Char → Bool) (s : Str) (c : Char) (hc : p c = true) :
    rstripP p (s ++ [c]) = rstripP p s := by
  unfold rstripP
  rw [List.reverse_append, List.reverse_singleton, List.singleton_append,
    List.dropWhile_cons, if_pos hc]

/-! ## Lemmas about the device-record fold -/

theorem foldl_device_part_lookup_of_no_key (k : Str) :
    ∀ (rest : List Str) (d : Dict),
      (∀ t ∈ rest, ∀ k', colonKey t = some k' → k' ≠ k) →
      dictLookup (rest.foldl device_part_step d) k = dictLookup d k := by
  intro rest
  induction rest with
  | nil => intro d _; rfl
  | cons t r' ih =>
    intro d h
    rw [List.foldl_cons]
    rw [ih (device_part_step d t) (fun u hu => h u (List.mem_cons_of_mem t hu))]
    unfold device_part_step
    cases hp : pySplit1 (str ":") t with
    | none => rfl
    | some kv =>
      obtain ⟨k', v'⟩ := kv
      have hk' : k' ≠ k :=
        h t (List.mem_cons_self t r') k' (by rw [colonKey, hp]; rfl)
      exact dictLookup_dictInsert_ne d k' v' k (fun he => hk' he.symm)

theorem foldl_device_part_lookup_of_mem (k v : Str) :
    ∀ (rest : List Str) (d : Dict) (t : Str),
      t ∈ rest → pySplit1 (str ":") t = some (k, v) →
      List.Pairwise (fun t1 t2 => ∀ k1 k2, colonKey t1 = some k1 → colonKey t2 = some k2 → k1 ≠ k2) rest →
      dictLookup (rest.foldl device_part_step d) k = some v := by
  intro rest
  induction rest with
  | nil => intro d t ht _ _; exact absurd ht (List.not_mem_nil t)
  | cons t' r' ih =>
    intro d t ht hp hpw
    rw [List.pairwise_cons] at hpw
    rw [List.foldl_cons]
    rcases List.mem_cons.mp ht with he | hmem
    · subst he
      have hnk : ∀ u ∈ r', ∀ k', colonKey u = some k' → k' ≠ k := by
        intro u hu k' hck' heq
        exact hpw.1 u hu k k' (by rw [colonKey, hp]; rfl) hck' heq.symm
      rw [foldl_device_part_lookup_of_no_key k r' _ hnk]
      unfold device_part_step
      rw [hp]
      exact dictLookup_dictInsert_self d k v
    · exact ih (device_part_step d t') t hmem hp hpw.2

/-! ## A lemma about `filterMap` when every element is kept -/

theorem filterMap_all_some {α β : Type} (f : α → Option β) :
    ∀ (l : List α), (∀ x ∈ l, (f x).isSome) →
      (l.filterMap f).length = l.length ∧
        ∀ i (hi : i < l.length), (l.filterMap f).get? i = f (l.get ⟨i, hi⟩) := by
  intro l
  induction l with
  | nil => intro _; exact ⟨rfl, fun i hi => absurd hi (Nat.not_lt_zero i)⟩
  | cons x xs ih =>
    intro h
    obtain ⟨b, hb⟩ := Option.isSome_iff_exists.mp (h x (List.mem_cons_self x xs))
    obtain ⟨ihl, ihg⟩ := ih (fun y hy => h y (List.mem_cons_of_mem x hy))
    rw [List.filterMap_cons, hb]
    refine ⟨by simp [ihl], ?_⟩
    intro i hi
    cases i with
    | zero => simp [hb]
    | succ j =>
      have hj : j < xs.length := Nat.lt_of_succ_lt_succ hi
      simp only [List.get?_cons_succ, List.get]
      exact ihg j hj

/-! ## Claim theorems -/

/-- Claim C10: in the device-list parser, a trailing `key:value` token whose
key equals `id` or `status` overwrites the field taken from tokens 0/1: the
line `serial device id:x` yields a record whose id is `x`, the line
`serial device id:` yields a record whose id is the empty string, and
likewise a `status:` token overwrites the status. -/
theorem C10_trailing_token_overwrites :
    ((list_devices_parse (str "List of devices attached\nserial device id:x")).map
        (fun d => dictLookup d (str "id")) = [some (str "x")]) ∧
    ((list_devices_parse (str "List of devices attached\nserial device id:")).map
        (fun d => dictLookup d (str "id")) = [some []]) ∧
    ((list_devices_parse (str "List of devices attached\nserial device status:offline")).map
        (fun d => dictLookup d (str "status")) = [some (str "offline")]) := by
  decide

/-- Claim C9: the Mock Responder is pure and deterministic (trivially, being a
function), and the exact list `["devices", "-l"]` yields the fixed two-device
listing text naming `mock_device_001` and `mock_device_002`. -/
theorem C9_mock_deterministic :
    (∀ args : List Str, run_mock_command args = run_mock_command args) ∧
    run_mock_command [str "devices", str "-l"] = some devices_l_output ∧
    containsSub (str "mock_device_001") devices_l_output = true ∧
    containsSub (str "mock_device_002") devices_l_output = true :=
  ⟨fun _ => rfl, rfl, by decide, by decide⟩

/-- Claim C5, counterexample: the Mock Responder is not total — on the empty
argument list and on `["shell"]` the source raises `IndexError` (out-of-range
`args[0]` / `args[1]`), modelled by `none`. -/
theorem C5_counterexample :
    run_mock_command [] = none ∧ run_mock_command [str "shell"] = none := by
  decide

/-- Claim C6, counterexample: for the device identifier `mock_device_002` the
argument list `["-s", d, "shell", "getprop"]` does not produce the property
dump — it falls through to the generic shell branch, whose output does not
even contain the key `ro.hardware`. -/
theorem C6_counterexample :
    run_mock_command [str "-s", str "mock_device_002", str "shell", str "getprop"]
        = some (str "Mock command output for: getprop") ∧
    containsSub (str "ro.hardware") (str "Mock command output for: getprop") = false := by
  decide

/-- Claim C3, counterexample: on the listing line `serial device id:x` (a
non-blank line with ≥ 2 whitespace tokens) the produced record's `id` is `x`,
not token 0 (`serial`): the trailing `id:x` token overwrites it. -/
theorem C3_counterexample :
    ((list_devices_parse (str "List of devices attached\nserial device id:x")).map
        (fun d => dictLookup d (str "id")) = [some (str "x")]) ∧
    (pySplitWs (str "serial device id:x")).get? 0 = some (str "serial") ∧
    str "x" ≠ str "serial" := by
  decide

/-- Claim C8, counterexample: a Device Record can have an empty `id`: the
line `serial device id:` ends in a `key:value` token with key `id` and empty
value, which overwrites the non-empty token 0. -/
theorem C8_counterexample :
    (list_devices_parse (str "List of devices attached\nserial device id:")).map
        (fun d => dictLookup d (str "id")) = [some []] := by
  decide

/-- Claim C7 (code bug): the registry `ADB_TOOLS` declares `uninstall_app`
with required key `package_name`, and the facade implements it, but the
dispatch layer has no `uninstall_app` branch: with the required argument
present it returns the unknown-tool error payload
`{"error": "Unknown tool: uninstall_app", "type": "UnknownError"}` instead of
invoking the facade. -/
theorem C7_uninstall_not_dispatched :
    (∃ td ∈ ADB_TOOLS, td.name = str "uninstall_app" ∧ td.required = [str "package_name"]) ∧
    (∀ runner : Runner,
      handle_call_tool runner (str "uninstall_app") [(str "package_name", str "com.example.app")]
        = Response.err (str "Unknown tool: uninstall_app") (str "UnknownError")) ∧
    uninstall_app (fun _ => Except.ok (str "Success")) (str "com.example.app") none = true := by
  refine ⟨⟨⟨str "uninstall_app", [str "package_name"], [str "device_id"]⟩, by decide, rfl, rfl⟩,
    fun runner => ?_, rfl⟩
  rfl

/-- Claim C1, counterexample: dispatching `shell_command` with empty arguments
does yield an error response, but its kind is the catch-all `UnknownError`
(the `KeyError` repr), not an `InvalidParams`-kind error. -/
theorem C1_counterexample :
    handle_call_tool (fun _ => Except.ok []) (str "shell_command") []
        = Response.err (pyReprKey (str "command")) (str "UnknownError") ∧
    str "UnknownError" ≠ str "InvalidParams" := by
  decide

/-- Claim C2: when the underlying command exits non-zero, `install_app`
returns `false` (raising nothing), while `list_devices` propagates the
command-failure `ADBError` unchanged to the dispatch layer, which serializes
it as `{"error": <message containing the trimmed stderr>, "type": "ADBError"}`. -/
theorem C2_failure_propagation (r : ProcResult) (apk_path : Str) (device_id : Option Str)
    (h : r.returncode ≠ 0) :
    install_app (fun _ => run_command (str "adb") (LaunchOutcome.ok r)) apk_path device_id = false ∧
    ∃ msg,
      list_devices (fun _ => run_command (str "adb") (LaunchOutcome.ok r)) = Except.error msg ∧
      containsSub (pyStrip r.stderr) msg = true ∧
      handle_call_tool (fun _ => run_command (str "adb") (LaunchOutcome.ok r))
          (str "list_devices") [] = Response.err msg (str "ADBError") := by
  have h1 : run_command_try r = Except.error (str "ADB command failed: " ++ pyStrip r.stderr) := by
    unfold run_command_try
    rw [if_pos h]
  have hrun : run_command (str "adb") (LaunchOutcome.ok r)
      = Except.error (str "Failed to execute ADB command: "
          ++ (str "ADB command failed: " ++ pyStrip r.stderr)) := by
    simp only [run_command]
    rw [h1]
  have hld : list_devices (fun _ => run_command (str "adb") (LaunchOutcome.ok r))
      = Except.error (str "Failed to execute ADB command: "
          ++ (str "ADB command failed: " ++ pyStrip r.stderr)) := by
    unfold list_devices
    rw [hrun]
    rfl
  refine ⟨?_, str "Failed to execute ADB command: " ++ (str "ADB command failed: " ++ pyStrip r.stderr),
    hld, ?_, ?_⟩
  · unfold install_app
    rw [hrun]
  · have hsub := containsSub_append_self
      (str "Failed to execute ADB command: " ++ str "ADB command failed: ") (pyStrip r.stderr)
    rw [List.append_assoc] at hsub
    exact hsub
  · unfold handle_call_tool handle_call_tool_body
    rw [if_pos rfl, hld]
    rfl

/-- Witness for C2 at exit status 1 and stderr `device not found`. -/
theorem C2_witness :
    ((1 : Int) ≠ 0) ∧
    install_app
        (fun _ => run_command (str "adb") (LaunchOutcome.ok ⟨1, [], str "device not found"⟩))
        (str "app.apk") none = false :=
  ⟨by decide,
    (C2_failure_propagation ⟨1, [], str "device not found"⟩ (str "app.apk") none (by decide)).1⟩

/-- Claim C1 (amended): for every dispatchable tool with required argument
keys, an argument bag missing a required key makes the dispatch layer return
an error response without invoking the runner (no subprocess is spawned) —
but the error is the catch-all `UnknownError` carrying the `KeyError` repr of
the missing key, not a distinct `InvalidParams` kind. -/
theorem C1_amended (runner runner2 : Runner) (name : Str) (arguments : Arguments)
    (req : List Str)
    (hreg : (name, req) ∈ [(str "shell_command", [str "command"]),
        (str "install_app", [str "apk_path"]),
        (str "push_file", [str "local_path", str "remote_path"]),
        (str "pull_file", [str "remote_path", str "local_path"])])
    (hmiss : ∃ k ∈ req, dictLookup arguments k = none) :
    (∃ k, k ∈ req ∧ dictLookup arguments k = none ∧
      handle_call_tool runner name arguments
        = Response.err (pyReprKey k) (str "UnknownError")) ∧
    handle_call_tool runner name arguments = handle_call_tool runner2 name arguments := by
  simp only [List.mem_cons, List.not_mem_nil, or_false] at hreg
  rcases hreg with h | h | h | h
  · rw [Prod.mk.injEq] at h
    obtain ⟨hn, hr⟩ := h
    subst hn; subst hr
    rcases hmiss with ⟨k, hk, hnone⟩
    rw [List.mem_singleton] at hk
    subst hk
    have hreq : requireArg arguments (str "command")
        = Except.error (PyExc.keyError (str "command")) := by
      unfold requireArg; rw [hnone]
    have hH : ∀ rn : Runner, handle_call_tool rn (str "shell_command") arguments
        = Response.err (pyReprKey (str "command")) (str "UnknownError") := by
      intro rn
      unfold handle_call_tool handle_call_tool_body
      rw [if_neg (by decide), if_neg (by decide), if_pos rfl]
      simp only [hreq]
      rfl
    exact ⟨⟨str "command", List.mem_singleton.mpr rfl, hnone, hH runner⟩,
      by rw [hH runner, hH runner2]⟩
  · rw [Prod.mk.injEq] at h
    obtain ⟨hn, hr⟩ := h
    subst hn; subst hr
    rcases hmiss with ⟨k, hk, hnone⟩
    rw [List.mem_singleton] at hk
    subst hk
    have hreq : requireArg arguments (str "apk_path")
        = Except.error (PyExc.keyError (str "apk_path")) := by
      unfold requireArg; rw [hnone]
    have hH : ∀ rn : Runner, handle_call_tool rn (str "install_app") arguments
        = Response.err (pyReprKey (str "apk_path")) (str "UnknownError") := by
      intro rn
      unfold handle_call_tool handle_call_tool_body
      rw [if_neg (by decide), if_neg (by decide), if_neg (by decide), if_pos rfl]
      simp only [hreq]
      rfl
    exact ⟨⟨str "apk_path", List.mem_singleton.mpr rfl, hnone, hH runner⟩,
      by rw [hH runner, hH runner2]⟩
  · rw [Prod.mk.injEq] at h
    obtain ⟨hn, hr⟩ := h
    subst hn; subst hr
    by_cases hl : dictLookup arguments (str "local_path") = none
    · have hreq : requireArg arguments (str "local_path")
          = Except.error (PyExc.keyError (str "local_path")) := by
        unfold requireArg; rw [hl]
      have hH : ∀ rn : Runner, handle_call_tool rn (str "push_file") arguments
          = Response.err (pyReprKey (str "local_path")) (str "UnknownError") := by
        intro rn
        unfold handle_call_tool handle_call_tool_body
        rw [if_neg (by decide), if_neg (by decide), if_neg (by decide), if_neg (by decide),
          if_pos rfl]
        simp only [hreq]
        rfl
      exact ⟨⟨str "local_path", by simp, hl, hH runner⟩, by rw [hH runner, hH runner2]⟩
    · have hrem : dictLookup arguments (str "remote_path") = none := by
        rcases hmiss with ⟨k, hk, hn⟩
        simp only [List.mem_cons, List.not_mem_nil, or_false] at hk
        rcases hk with rfl | rfl
        · exact absurd hn hl
        · exact hn
      cases hv : dictLookup arguments (str "local_path") with
      | none => exact absurd hv hl
      | some v =>
        have hreq1 : requireArg arguments (str "local_path") = Except.ok v := by
          unfold requireArg; rw [hv]
        have hreq2 : requireArg arguments (str "remote_path")
            = Except.error (PyExc.keyError (str "remote_path")) := by
          unfold requireArg; rw [hrem]
        have hH : ∀ rn : Runner, handle_call_tool rn (str "push_file") arguments
            = Response.err (pyReprKey (str "remote_path")) (str "UnknownError") := by
          intro rn
          unfold handle_call_tool handle_call_tool_body
          rw [if_neg (by decide), if_neg (by decide), if_neg (by decide), if_neg (by decide),
            if_pos rfl]
          simp only [hreq1, hreq2]
          rfl
        exact ⟨⟨str "remote_path", by simp, hrem, hH runner⟩, by rw [hH runner, hH runner2]⟩
  · rw [Prod.mk.injEq] at h
    obtain ⟨hn, hr⟩ := h
    subst hn; subst hr
    by_cases hl : dictLookup arguments (str "remote_path") = none
    · have hreq : requireArg arguments (str "remote_path")
          = Except.error (PyExc.keyError (str "remote_path")) := by
        unfold requireArg; rw [hl]
      have hH : ∀ rn : Runner, handle_call_tool rn (str "pull_file") arguments
          = Response.err (pyReprKey (str "remote_path")) (str "UnknownError") := by
        intro rn
        unfold handle_call_tool handle_call_tool_body
        rw [if_neg (by decide), if_neg (by decide), if_neg (by decide), if_neg (by decide),
          if_neg (by decide), if_pos rfl]
        simp only [hreq]
        rfl
      exact ⟨⟨str "remote_path", by simp, hl, hH runner⟩, by rw [hH runner, hH runner2]⟩
    · have hloc : dictLookup arguments (str "local_path") = none := by
        rcases hmiss with ⟨k, hk, hn⟩
        simp only [List.mem_cons, List.not_mem_nil, or_false] at hk
        rcases hk with rfl | rfl
        · exact absurd hn hl
        · exact hn
      cases hv : dictLookup arguments (str "remote_path") with
      | none => exact absurd hv hl
      | some v =>
        have hreq1 : requireArg arguments (str "remote_path") = Except.ok v := by
          unfold requireArg; rw [hv]
        have hreq2 : requireArg arguments (str "local_path")
            = Except.error (PyExc.keyError (str "local_path")) := by
          unfold requireArg; rw [hloc]
        have hH : ∀ rn : Runner, handle_call_tool rn (str "pull_file") arguments
            = Response.err (pyReprKey (str "local_path")) (str "UnknownError") := by
          intro rn
          unfold handle_call_tool handle_call_tool_body
          rw [if_neg (by decide), if_neg (by decide), if_neg (by decide), if_neg (by decide),
            if_neg (by decide), if_pos rfl]
          simp only [hreq1, hreq2]
          rfl
        exact ⟨⟨str "local_path", by simp, hloc, hH runner⟩, by rw [hH runner, hH runner2]⟩

/-- Witness for C1 at tool `shell_command` with empty arguments. -/
theorem C1_witness :
    handle_call_tool (fun _ => Except.ok []) (str "shell_command") []
      = Response.err (pyReprKey (str "command")) (str "UnknownError") := by
  have h := C1_amended (fun _ => Except.ok []) (fun _ => Except.error []) (str "shell_command")
    [] [str "command"] (by decide) ⟨str "command", by decide, rfl⟩
  rcases h.1 with ⟨k, hk, _, hh⟩
  rw [List.mem_singleton] at hk
  subst hk
  exact hh

/-- Claim C5 (amended): the Mock Responder returns a string for every
argument list except exactly the empty list and the singleton `["shell"]`,
on which the source's unconditional `args[0]` / `args[1]` indexing raises
`IndexError`. -/
theorem C5_amended (args : List Str) :
    (∃ s, run_mock_command args = some s) ↔ (args ≠ [] ∧ args ≠ [str "shell"]) := by
  constructor
  · rintro ⟨s, hs⟩
    refine ⟨?_, ?_⟩
    · rintro rfl
      rw [show run_mock_command [] = none from by decide] at hs
      exact Option.noConfusion hs
    · rintro rfl
      rw [show run_mock_command [str "shell"] = none from by decide] at hs
      exact Option.noConfusion hs
  · rintro ⟨h1, h2⟩
    rcases args with _ | ⟨a0, rest⟩
    · exact absurd rfl h1
    · by_cases hdl : a0 :: rest = [str "devices", str "-l"]
      · refine ⟨devices_l_output, ?_⟩
        rw [hdl]
        rfl
      · by_cases hsh : a0 = str "shell"
        · subst hsh
          rcases rest with _ | ⟨a1, r'⟩
          · exact absurd rfl h2
          · by_cases hgp : a1 = str "getprop"
            · subst hgp
              refine ⟨getprop_output, ?_⟩
              unfold run_mock_command
              rw [if_neg hdl]
              show (if str "shell" = str "shell" then
                  (if str "getprop" = str "getprop" then some getprop_output
                    else some (mock_tail (str "shell" :: str "getprop" :: r')))
                  else some (mock_tail (str "shell" :: str "getprop" :: r'))) = some getprop_output
              rw [if_pos rfl, if_pos rfl]
            · refine ⟨mock_tail (str "shell" :: a1 :: r'), ?_⟩
              unfold run_mock_command
              rw [if_neg hdl]
              show (if str "shell" = str "shell" then
                  (if a1 = str "getprop" then some getprop_output
                    else some (mock_tail (str "shell" :: a1 :: r')))
                  else some (mock_tail (str "shell" :: a1 :: r')))
                  = some (mock_tail (str "shell" :: a1 :: r'))
              rw [if_pos rfl, if_neg hgp]
        · rcases rest with _ | ⟨a1, r'⟩
          · refine ⟨mock_tail [a0], ?_⟩
            unfold run_mock_command
            rw [if_neg hdl]
            show (if a0 = str "shell" then none else some (mock_tail [a0])) = some (mock_tail [a0])
            rw [if_neg hsh]
          · refine ⟨mock_tail (a0 :: a1 :: r'), ?_⟩
            unfold run_mock_command
            rw [if_neg hdl]
            show (if a0 = str "shell" then
                (if a1 = str "getprop" then some getprop_output
                  else some (mock_tail (a0 :: a1 :: r')))
                else some (mock_tail (a0 :: a1 :: r'))) = some (mock_tail (a0 :: a1 :: r'))
            rw [if_neg hsh]

/-- Witness for C5 at the argument list `["install", "x.apk"]`. -/
theorem C5_witness : ∃ s, run_mock_command [str "install", str "x.apk"] = some s :=
  (C5_amended [str "install", str "x.apk"]).mpr ⟨by decide, by decide⟩

/-- Claim C6 (amended): the argument lists `["shell", "getprop"]` and
`["-s", "mock_device_001", "shell", "getprop"]` both map to the fixed
five-line bracketed property dump (containing the five documented keys) —
but only for the literal selector `mock_device_001`: for any other device
identifier `d` the list `["-s", d, "shell", "getprop"]` falls through to the
generic shell branch and yields `"Mock command output for: getprop"`. -/
theorem C6_amended :
    run_mock_command [str "shell", str "getprop"] = some getprop_output ∧
    run_mock_command [str "-s", str "mock_device_001", str "shell", str "getprop"]
        = some getprop_output ∧
    (∀ key ∈ [str "ro.build.version.release", str "ro.product.manufacturer",
        str "ro.product.model", str "ro.build.display.id", str "ro.hardware"],
      containsSub key getprop_output = true) ∧
    (∀ d : Str, d ≠ str "mock_device_001" → d ≠ str "shell" →
      run_mock_command [str "-s", d, str "shell", str "getprop"]
        = some (str "Mock command output for: getprop")) := by
  refine ⟨by rfl, by rfl, by decide, ?_⟩
  intro d hd hsh
  have hne : [str "-s", d, str "shell", str "getprop"] ≠ [str "devices", str "-l"] := by
    intro hc
    simpa using congrArg List.length hc
  unfold run_mock_command
  rw [if_neg hne]
  show (if str "-s" = str "shell" then
      (if d = str "getprop" then some getprop_output
        else some (mock_tail [str "-s", d, str "shell", str "getprop"]))
      else some (mock_tail [str "-s", d, str "shell", str "getprop"]))
      = some (str "Mock command output for: getprop")
  rw [if_neg (by decide)]
  have hc1 : ¬([str "-s", d, str "shell", str "getprop"].take 2
      = [str "-s", str "mock_device_001"] ∧
      [str "-s", d, str "shell", str "getprop"].drop 2 = [str "shell", str "getprop"]) := by
    rintro ⟨ht, _⟩
    rw [show [str "-s", d, str "shell", str "getprop"].take 2 = [str "-s", d] from rfl] at ht
    injection ht with h1 h2
    injection h2 with h3 _
    exact hd h3
  have hmem : str "shell" ∈ [str "-s", d, str "shell", str "getprop"] :=
    List.mem_cons_of_mem _ (List.mem_cons_of_mem _ (List.mem_cons_self _ _))
  have hidx : pyIndex (str "shell") [str "-s", d, str "shell", str "getprop"] = 2 := by
    show (if str "-s" = str "shell" then 0
        else pyIndex (str "shell") [d, str "shell", str "getprop"] + 1) = 2
    rw [if_neg (by decide)]
    show (if d = str "shell" then 0
        else pyIndex (str "shell") [str "shell", str "getprop"] + 1) + 1 = 2
    rw [if_neg hsh]
    rfl
  unfold mock_tail
  rw [if_neg hc1, if_pos hmem, hidx]
  rfl

/-- Witness for C6 at the device identifier `x`. -/
theorem C6_witness :
    run_mock_command [str "-s", str "x", str "shell", str "getprop"]
      = some (str "Mock command output for: getprop") :=
  C6_amended.2.2.2 (str "x") (by decide) (by decide)

/-! ## Helper lemmas about the two parsers -/

theorem parse_device_line_eq (line : Str) (p0 p1 : Str) (rest : List Str)
    (hSplit : pySplitWs line = p0 :: p1 :: rest) (hstrip : pyStrip line ≠ []) :
    parse_device_line line
      = some (rest.foldl device_part_step [(str "id", p0), (str "status", p1)]) := by
  unfold parse_device_line
  rw [if_neg hstrip, hSplit]

theorem parse_device_line_inv (line : Str) (d : Dict) (h : parse_device_line line = some d) :
    ∃ p0 p1 rest, pySplitWs line = p0 :: p1 :: rest ∧
      d = rest.foldl device_part_step [(str "id", p0), (str "status", p1)] := by
  unfold parse_device_line at h
  by_cases hs : pyStrip line = []
  · rw [if_pos hs] at h; exact Option.noConfusion h
  · rw [if_neg hs] at h
    cases htok : pySplitWs line with
    | nil => rw [htok] at h; exact Option.noConfusion h
    | cons p0 t =>
      cases t with
      | nil => rw [htok] at h; exact Option.noConfusion h
      | cons p1 rest =>
        rw [htok] at h
        injection h with h'
        exact ⟨p0, p1, rest, rfl, h'.symm⟩

theorem parse_device_line_bad (l : Str) (h : pyStrip l = [] ∨ (pySplitWs l).length < 2) :
    parse_device_line l = none := by
  unfold parse_device_line
  by_cases hs : pyStrip l = []
  · rw [if_pos hs]
  · rw [if_neg hs]
    rcases h with h1 | h2
    · exact absurd h1 hs
    · cases htok : pySplitWs l with
      | nil => rfl
      | cons p0 t =>
        cases t with
        | nil => rfl
        | cons p1 rest =>
          rw [htok] at h2
          exact absurd h2 (by simp)

theorem foldl_device_part_keeps (rest : List Str) :
    ∀ (d : Dict) (k : Str), (dictLookup d k).isSome →
      (dictLookup (rest.foldl device_part_step d) k).isSome := by
  induction rest with
  | nil => intro d k h; exact h
  | cons t r' ih =>
    intro d k h
    rw [List.foldl_cons]
    refine ih _ k ?_
    unfold device_part_step
    cases hp : pySplit1 (str ":") t with
    | none => exact h
    | some kv =>
      obtain ⟨k', v'⟩ := kv
      exact dictInsert_isSome_preserved d k' v' k h

theorem list_devices_parse_join (header : Str) (lines : List Str)
    (hh : '\n' ∉ header) (hl : ∀ l ∈ lines, '\n' ∉ l) :
    list_devices_parse (joinWith '\n' (header :: lines))
      = lines.filterMap parse_device_line := by
  unfold list_devices_parse
  rw [pySplitOn_joinWith '\n' (header :: lines) (by simp) ?_]
  · rfl
  · intro x hx
    rcases List.mem_cons.mp hx with he | hx2
    · subst he; exact hh
    · exact hl x hx2

theorem get_device_info_line_no_marker (props : Dict) (l : Str)
    (h : containsSub (str ": [") l = false) :
    get_device_info_line props l = props := by
  unfold get_device_info_line
  cases hp : pySplit1 (str ": [") l with
  | none => rfl
  | some ab =>
    have hiff := pySplit1_isSome_eq_containsSub (str ": [") (by decide) l
    rw [hp, h] at hiff
    exact Bool.noConfusion hiff

theorem stripChars_brackets (k : Str)
    (hhead : ∀ c, k.head? = some c → c ≠ '[' ∧ c ≠ ']')
    (hlast : ∀ c, k.getLast? = some c → c ≠ '[' ∧ c ≠ ']') :
    stripChars (str "[]") ('[' :: (k ++ [']'])) = k := by
  unfold stripChars lstripP
  rw [List.dropWhile_cons, if_pos (by decide)]
  cases hk : k with
  | nil =>
    show rstripP _ (List.dropWhile _ [']']) = []
    rw [List.dropWhile_cons, if_pos (by decide)]
    rfl
  | cons c k' =>
    have hc := hhead c (by rw [hk]; rfl)
    rw [List.cons_append, List.dropWhile_cons,
      if_neg (by simp [show str "[]" = ['[', ']'] from rfl, hc.1, hc.2])]
    rw [← List.cons_append, rstripP_append_one _ _ _ (by decide)]
    refine rstripP_eq_self _ _ ?_
    intro c' hc'
    have hgl := hlast c' (by rw [hk]; exact hc')
    simp [show str "[]" = ['[', ']'] from rfl, hgl.1, hgl.2]

theorem rstripChars_bracket (v : Str) (hvlast : ∀ c, v.getLast? = some c → c ≠ ']') :
    rstripChars (str "]") (v ++ [']']) = v := by
  unfold rstripChars
  rw [rstripP_append_one _ _ _ (by decide)]
  refine rstripP_eq_self _ _ ?_
  intro c hc
  have hne := hvlast c hc
  simp [show str "]" = [']'] from rfl, hne]

/-- Claim C8 (amended): parsing is total (every input yields a well-defined
record list, malformed lines being skipped), and every produced Device Record
has an `id` entry — but the `id` value is only guaranteed non-empty when no
trailing `key:value` token of the line has key `id` (a trailing `id:` token
overwrites it with the empty string). -/
theorem C8_amended :
    (∀ (output : Str) (d : Dict), d ∈ list_devices_parse output →
      ∃ v, dictLookup d (str "id") = some v) ∧
    (∀ (line : Str) (d : Dict), parse_device_line line = some d →
      (∀ t ∈ (pySplitWs line).drop 2, ∀ k, colonKey t = some k → k ≠ str "id") →
      ∃ v, dictLookup d (str "id") = some v ∧ v ≠ []) := by
  constructor
  · intro output d hd
    obtain ⟨line, _, hline⟩ := List.mem_filterMap.mp hd
    obtain ⟨p0, p1, rest, htok, hdef⟩ := parse_device_line_inv line d hline
    subst hdef
    have hbase : (dictLookup [(str "id", p0), (str "status", p1)] (str "id")).isSome := by
      rfl
    exact Option.isSome_iff_exists.mp (foldl_device_part_keeps rest _ _ hbase)
  · intro line d hline hnone
    obtain ⟨p0, p1, rest, htok, hdef⟩ := parse_device_line_inv line d hline
    subst hdef
    have hrest : ∀ t ∈ rest, ∀ k, colonKey t = some k → k ≠ str "id" := by
      intro t ht k hk
      exact hnone t (by rw [htok]; exact ht) k hk
    rw [foldl_device_part_lookup_of_no_key (str "id") rest _ hrest]
    refine ⟨p0, rfl, ?_⟩
    have hp0 : p0 ∈ pySplitWs line := by rw [htok]; exact List.mem_cons_self _ _
    unfold pySplitWs at hp0
    exact of_decide_eq_true (List.mem_filter.mp hp0).2

/-- Witness for C8 at the listing `List of devices attached\nserial device`. -/
theorem C8_witness :
    ∃ v, dictLookup [(str "id", str "serial"), (str "status", str "device")] (str "id")
      = some v :=
  C8_amended.1 (str "List of devices attached\nserial device")
    [(str "id", str "serial"), (str "status", str "device")] (by decide)

/-- Claim C4: the property parser ignores every line not containing `": ["`;
a line `[k]: [v]` contributes the entry `k → v` (left part stripped of
leading/trailing `[`/`]` characters, right part stripped of trailing `]`);
and when two lines yield the same key, the map holds the later line's value
(the bracket-line clause holds whatever lines precede it). -/
theorem C4_property_lines :
    (∀ (lines : List Str), lines ≠ [] → (∀ l ∈ lines, '\n' ∉ l) →
      get_device_info_parse (joinWith '\n' lines) = lines.foldl get_device_info_line []) ∧
    (∀ (pre post : List Str) (l : Str), containsSub (str ": [") l = false →
      (pre ++ l :: post).foldl get_device_info_line []
        = (pre ++ post).foldl get_device_info_line []) ∧
    (∀ (ls : List Str) (k v : Str),
      (':' : Char) ∉ k →
      (∀ c, k.head? = some c → c ≠ '[' ∧ c ≠ ']') →
      (∀ c, k.getLast? = some c → c ≠ '[' ∧ c ≠ ']') →
      (∀ c, v.getLast? = some c → c ≠ ']') →
      dictLookup ((ls ++ [('[' :: k) ++ str "]: [" ++ v ++ str "]"]).foldl
          get_device_info_line []) k = some v) := by
  refine ⟨?_, ?_, ?_⟩
  · intro lines hne hnl
    unfold get_device_info_parse
    rw [pySplitOn_joinWith '\n' lines hne hnl]
  · intro pre post l h
    rw [List.foldl_append, List.foldl_append, List.foldl_cons,
      get_device_info_line_no_marker _ l h]
  · intro ls k v hcolon hhead hlast hvlast
    rw [List.foldl_append, List.foldl_cons, List.foldl_nil]
    have ha : (':' : Char) ∉ ('[' :: (k ++ [']'])) := by
      intro hmem
      rcases List.mem_cons.mp hmem with he | hmem2
      · exact absurd he (by decide)
      · rcases List.mem_append.mp hmem2 with hik | hbr
        · exact hcolon hik
        · rw [List.mem_singleton] at hbr
          exact absurd hbr (by decide)
    have hsplit0 := pySplit1_marker ':' (str " [") ('[' :: (k ++ [']'])) (v ++ [']']) ha
    have hline : ('[' :: k) ++ str "]: [" ++ v ++ str "]"
        = ('[' :: (k ++ [']'])) ++ (':' :: str " [") ++ (v ++ [']']) := by
      show ('[' :: k) ++ (']' :: ':' :: ' ' :: '[' :: []) ++ v ++ (']' :: [])
          = ('[' :: (k ++ [']'])) ++ (':' :: ' ' :: '[' :: []) ++ (v ++ [']'])
      simp [List.append_assoc]
    unfold get_device_info_line
    rw [hline, show (str ": [") = (':' :: str " [") from rfl, hsplit0]
    show dictLookup (dictInsert (ls.foldl get_device_info_line [])
        (stripChars (str "[]") ('[' :: (k ++ [']'])))
        (rstripChars (str "]") (v ++ [']']))) k = some v
    rw [stripChars_brackets k hhead hlast, rstripChars_bracket v hvlast]
    exact dictLookup_dictInsert_self _ k v

/-- Witness for C4 at a two-line dump with a duplicated key `a`. -/
theorem C4_witness :
    get_device_info_parse (joinWith '\n' [str "[a]: [1]", str "noise"])
        = [str "[a]: [1]", str "noise"].foldl get_device_info_line [] ∧
    ([str "[a]: [1]"] ++ str "noise" :: []).foldl get_device_info_line []
        = ([str "[a]: [1]"] ++ []).foldl get_device_info_line [] ∧
    dictLookup (([str "[a]: [1]"] ++ [('[' :: str "a") ++ str "]: [" ++ str "2" ++ str "]"]).foldl
        get_device_info_line []) (str "a") = some (str "2") :=
  ⟨C4_property_lines.1 [str "[a]: [1]", str "noise"] (by decide) (by decide),
   C4_property_lines.2.1 [str "[a]: [1]"] [] (str "noise") (by decide),
   C4_property_lines.2.2 [str "[a]: [1]"] (str "a") (str "2") (by decide)
     (by intro c hc; injection hc with h; subst h; exact ⟨by decide, by decide⟩)
     (by intro c hc; injection hc with h; subst h; exact ⟨by decide, by decide⟩)
     (by intro c hc; injection hc with h; subst h; decide)⟩

/-- Claim C3 (amended): for device-listing text made of a header line and `N`
non-blank lines of ≥ 2 whitespace tokens, the parser returns exactly `N`
records in file order; record `i` has `id`/`status` from tokens 0/1 of line
`i` and one entry per trailing `key:value` token — provided (as the dict
overwrite semantics forces) no trailing token's key collides with `id`,
`status`, or another trailing token's key.  Lines that are blank or have
fewer than 2 tokens contribute no record, and header-only input yields the
empty sequence. -/
theorem C3_amended :
    (∀ (header : Str) (lines : List Str),
      '\n' ∉ header → (∀ l ∈ lines, '\n' ∉ l) →
      (∀ l ∈ lines, pyStrip l ≠ [] ∧ 2 ≤ (pySplitWs l).length ∧
        (∀ t ∈ (pySplitWs l).drop 2, ∀ k, colonKey t = some k →
          k ≠ str "id" ∧ k ≠ str "status") ∧
        List.Pairwise (fun t1 t2 => ∀ k1 k2, colonKey t1 = some k1 →
          colonKey t2 = some k2 → k1 ≠ k2) ((pySplitWs l).drop 2)) →
      (list_devices_parse (joinWith '\n' (header :: lines))).length = lines.length ∧
      (∀ i (hi : i < lines.length),
        ∃ d : Dict, (list_devices_parse (joinWith '\n' (header :: lines))).get? i = some d ∧
          dictLookup d (str "id") = (pySplitWs (lines.get ⟨i, hi⟩)).get? 0 ∧
          dictLookup d (str "status") = (pySplitWs (lines.get ⟨i, hi⟩)).get? 1 ∧
          (∀ t ∈ (pySplitWs (lines.get ⟨i, hi⟩)).drop 2, ∀ k v,
            pySplit1 (str ":") t = some (k, v) → dictLookup d k = some v))) ∧
    (∀ (header : Str) (pre post : List Str) (l : Str),
      '\n' ∉ header → (∀ x ∈ pre, '\n' ∉ x) → (∀ x ∈ post, '\n' ∉ x) → '\n' ∉ l →
      (pyStrip l = [] ∨ (pySplitWs l).length < 2) →
      list_devices_parse (joinWith '\n' (header :: (pre ++ l :: post)))
        = list_devices_parse (joinWith '\n' (header :: (pre ++ post)))) ∧
    (∀ header : Str, '\n' ∉ header → list_devices_parse header = []) := by
  refine ⟨?_, ?_, ?_⟩
  · intro header lines hh hnl hgood
    rw [list_devices_parse_join header lines hh hnl]
    have hsome : ∀ l ∈ lines, (parse_device_line l).isSome := by
      intro l hl
      obtain ⟨hstrip, hlen, -, -⟩ := hgood l hl
      cases htok : pySplitWs l with
      | nil =>
        rw [htok] at hlen
        exact absurd hlen (by simp only [List.length_nil]; omega)
      | cons p0 t =>
        cases t with
        | nil =>
          rw [htok] at hlen
          exact absurd hlen (by simp only [List.length_cons, List.length_nil]; omega)
        | cons p1 rest =>
          rw [parse_device_line_eq l p0 p1 rest htok hstrip]
          rfl
    obtain ⟨hlenF, hgetF⟩ := filterMap_all_some parse_device_line lines hsome
    refine ⟨hlenF, ?_⟩
    intro i hi
    obtain ⟨hstrip, hlen, hknot, hpw⟩ := hgood (lines.get ⟨i, hi⟩) (lines.get_mem i hi)
    cases htok : pySplitWs (lines.get ⟨i, hi⟩) with
    | nil =>
      rw [htok] at hlen
      exact absurd hlen (by simp only [List.length_nil]; omega)
    | cons p0 t =>
      cases t with
      | nil =>
        rw [htok] at hlen
        exact absurd hlen (by simp only [List.length_cons, List.length_nil]; omega)
      | cons p1 rest =>
        refine ⟨rest.foldl device_part_step [(str "id", p0), (str "status", p1)],
          ?_, ?_, ?_, ?_⟩
        · rw [hgetF i hi]
          exact parse_device_line_eq _ p0 p1 rest htok hstrip
        · have hrest : ∀ t ∈ rest, ∀ k, colonKey t = some k → k ≠ str "id" := by
            intro t ht k hk
            exact (hknot t (by rw [htok]; exact ht) k hk).1
          rw [foldl_device_part_lookup_of_no_key (str "id") rest _ hrest]
          rfl
        · have hrest : ∀ t ∈ rest, ∀ k, colonKey t = some k → k ≠ str "status" := by
            intro t ht k hk
            exact (hknot t (by rw [htok]; exact ht) k hk).2
          rw [foldl_device_part_lookup_of_no_key (str "status") rest _ hrest]
          rfl
        · intro t ht k v hsplit
          refine foldl_device_part_lookup_of_mem k v rest _ t ?_ hsplit ?_
          · exact ht
          · rw [htok] at hpw; exact hpw
  · intro header pre post l hh hpre hpost hl hbad
    rw [list_devices_parse_join header (pre ++ l :: post) hh ?_,
      list_devices_parse_join header (pre ++ post) hh ?_]
    · rw [List.filterMap_append, List.filterMap_append,
        List.filterMap_cons, parse_device_line_bad l hbad]
    · intro x hx
      rcases List.mem_append.mp hx with h1 | h2
      · exact hpre x h1
      · exact hpost x h2
    · intro x hx
      rcases List.mem_append.mp hx with h1 | h2
      · exact hpre x h1
      · rcases List.mem_cons.mp h2 with he | h3
        · subst he; exact hl
        · exact hpost x h3
  · intro header hh
    unfold list_devices_parse
    rw [show pySplitOn '\n' header = [header] from
      pySplitP_single _ header (fun c hc => decide_eq_false (fun he => hh (he ▸ hc)))]
    rfl

/-- Witness for C3 at a one-device listing. -/
theorem C3_witness :
    (list_devices_parse
        (joinWith '\n' [str "List of devices attached", str "serial device usb:1-1"])).length
      = 1 := by
  have h := (C3_amended.1 (str "List of devices attached") [str "serial device usb:1-1"]
    (by decide) (by decide) ?_).1
  · exact h
  · intro l hl
    rw [List.mem_singleton] at hl
    subst hl
    refine ⟨by decide, by decide, ?_, ?_⟩
    · intro t ht k hk
      rw [show (pySplitWs (str "serial device usb:1-1")).drop 2 = [str "usb:1-1"] from
        by decide] at ht
      rw [List.mem_singleton] at ht
      subst ht
      rw [show colonKey (str "usb:1-1") = some (str "usb") from by decide] at hk
      injection hk with hk'
      subst hk'
      exact ⟨by decide, by decide⟩
    · rw [show (pySplitWs (str "serial device usb:1-1")).drop 2 = [str "usb:1-1"] from
        by decide]
      simp
